import Mathlib

/-!
Verification development for the hazard-aware motion command arbiter in
`nav_pkg/nav_pkg/help.py` (class `HazardControlGUI`).

Floating-point values of the Python source are modelled as exact rationals
(every Python float literal appearing in the program is a rational number);
the one place the source computes a square root (`np.sqrt` in
`update_gamepad`) is modelled over the reals.

Methods of the source whose bodies are elided in the repository
(`HazardPublisherNode.wheel_drive`, the hazard callback updating
`emergency_active`, and `update_threshold`) are modelled from the spec and
marked as such in their doc comments.
-/

/-- A velocity intent: linear direction `x` (forward), angular direction `z`
(turn) and `speed`, as passed to `wheel_drive(x, z, speed, ...)`. -/
structure Intent where
  x : ℚ
  z : ℚ
  speed : ℚ
deriving DecidableEq

/-- Safety state of the hazard monitor. -/
inductive SafetyState where
  | NORMAL
  | EMERGENCY
deriving DecidableEq

/-- Effective operating mode combining hazard state and operator override. -/
inductive EffectiveMode where
  | NORMAL
  | EMERGENCY_STOPPED
  | OVERRIDDEN
deriving DecidableEq

/-- Modelled from the spec: the derived mode invariant of spec section 3.
`EMERGENCY_STOPPED` iff hazard is `EMERGENCY` and override is off,
`OVERRIDDEN` iff hazard is `EMERGENCY` and override is on, else `NORMAL`.
The code realising this lives in `HazardPublisherNode.wheel_drive`, whose
body is elided from `help.py`. -/
def effectiveMode (hz : SafetyState) (ov : Bool) : EffectiveMode :=
  match hz, ov with
  | SafetyState.EMERGENCY, false => EffectiveMode.EMERGENCY_STOPPED
  | SafetyState.EMERGENCY, true => EffectiveMode.OVERRIDDEN
  | SafetyState.NORMAL, _ => EffectiveMode.NORMAL

/-- Modelled from the spec: `SafetyInterlock.gate` — the zeroing decision
inside `HazardPublisherNode.wheel_drive` (body elided from `help.py`).
Returns the zero intent under `EMERGENCY_STOPPED`, the input intent
unmodified otherwise, together with the effective mode. -/
def gate (i : Intent) (hz : SafetyState) (ov : Bool) : Intent × EffectiveMode :=
  match effectiveMode hz ov with
  | EffectiveMode.EMERGENCY_STOPPED => (⟨0, 0, 0⟩, EffectiveMode.EMERGENCY_STOPPED)
  | m => (i, m)

/-- Modelled from the spec: `HazardMonitor.state()` — `EMERGENCY` iff the
current distance is strictly below the threshold. The handler that derives
`emergency_active` from `hazard_distance` (`update_hazard_display`, reached
through `hazard_update_signal`) is elided from `help.py`. -/
def hazardState (d t : ℚ) : SafetyState :=
  if d < t then SafetyState.EMERGENCY else SafetyState.NORMAL

/-- The four manual direction buttons (`self.button_states`). -/
structure ButtonState where
  forward : Bool
  backward : Bool
  left : Bool
  right : Bool
deriving DecidableEq

/-- Manual forward contribution, from `update_output`:
`x = 0.0; if forward: x += 1.0; if backward: x -= 1.0`. -/
def manual_x (b : ButtonState) : ℚ :=
  (if b.forward then (1 : ℚ) else 0) - (if b.backward then (1 : ℚ) else 0)

/-- Manual turn contribution, from `update_output`:
`z = 0.0; if left: z += 1.0; if right: z -= 1.0`. -/
def manual_z (b : ButtonState) : ℚ :=
  (if b.left then (1 : ℚ) else 0) - (if b.right then (1 : ℚ) else 0)

/-- Python's built-in `abs` on a rational, written out so that concrete
instances evaluate by kernel reduction. -/
def rabs (q : ℚ) : ℚ := if q < 0 then -q else q

theorem rabs_eq_abs (q : ℚ) : rabs q = |q| := by
  unfold rabs
  rcases lt_or_le q 0 with h | h
  · rw [if_pos h, abs_of_neg h]
  · rw [if_neg (not_lt.mpr h), abs_of_nonneg h]

/-- The change-gate epsilon `self.deadzone = 0.01` used by `update_output`
(distinct from the gamepad stick deadzone `0.2` local to `update_gamepad`). -/
def deadzone : ℚ := 1 / 100

/-- The change gate of `update_output` (lines 335-337): dispatch iff any of
the three per-field absolute differences strictly exceeds `self.deadzone`. -/
def changeGate (x z sp lx lz lsp : ℚ) : Prop :=
  rabs (x - lx) > deadzone ∨ rabs (z - lz) > deadzone ∨ rabs (sp - lsp) > deadzone

instance (x z sp lx lz lsp : ℚ) : Decidable (changeGate x z sp lx lz lsp) := by
  unfold changeGate; infer_instance

/-- The mutable state of `HazardControlGUI` touched by the arbiter core:
operator speed slider value, manual buttons, hazard monitoring fields and
the last-dispatched values tracked by `update_output`. -/
structure GuiState where
  speed : ℚ
  button_states : ButtonState
  hazard_distance : ℚ
  emergency_active : Bool
  hazard_threshold : ℚ
  safe_mode_override : Bool
  last_x : ℚ
  last_z : ℚ
  last_speed : ℚ
deriving DecidableEq

/-- The initial state set by `HazardControlGUI.__init__`. -/
def initState : GuiState where
  speed := 0
  button_states := ⟨false, false, false, false⟩
  hazard_distance := 999
  emergency_active := false
  hazard_threshold := 5
  safe_mode_override := false
  last_x := 0
  last_z := 0
  last_speed := 0

/-- The safety state currently recorded in the GUI state (the stored
`emergency_active` flag viewed as a `SafetyState`). -/
def hazardStateOf (s : GuiState) : SafetyState :=
  if s.emergency_active then SafetyState.EMERGENCY else SafetyState.NORMAL

/-- Modelled from the spec: the hazard callback path
(`hazard_callback_gui` / `update_hazard_display`, elided from `help.py`)
stores the newly arrived distance and rederives `emergency_active` from the
strict threshold comparison. -/
def update_hazard_display (s : GuiState) (d : ℚ) : GuiState :=
  { s with
    hazard_distance := d
    emergency_active := decide (d < s.hazard_threshold) }

/-- Modelled from the spec: `update_threshold`, the slider handler (body
elided from `help.py`); the slider holds an integer in `10..100`
(`setRange(10, 100)`) and `__init__` stores `int(threshold * 10)` into it,
so the handler maps a slider value `v` to the threshold `v / 10` metres. -/
def update_threshold (s : GuiState) (v : ℕ) : GuiState :=
  { s with hazard_threshold := (v : ℚ) / 10 }

/-- One dispatch tick: the command-sending core of
`HazardControlGUI.update_output` (the ROS-connected path, lines 324-342),
composed with the spec-modelled interlock inside `wheel_drive`. The
candidate `(x, z, speed)` is fused from the manual buttons and the speed
slider; if any field differs from the last-sent values by more than
`self.deadzone`, `wheel_drive` is invoked (whose transmitted intent is the
gated candidate) and the raw candidate is stored into
`last_x / last_z / last_speed`; otherwise nothing is sent and the state is
unchanged. -/
def update_output (s : GuiState) : GuiState × Option Intent :=
  let x := manual_x s.button_states
  let z := manual_z s.button_states
  if changeGate x z s.speed s.last_x s.last_z s.last_speed then
    ({ s with last_x := x, last_z := z, last_speed := s.speed },
      some (gate ⟨x, z, s.speed⟩ (hazardStateOf s) s.safe_mode_override).1)
  else
    (s, none)

/-- Iterate `update_output` for `n` ticks with no intervening input change,
returning the final state and the number of sends performed. -/
def runTicks (s : GuiState) : ℕ → GuiState × ℕ
  | 0 => (s, 0)
  | n + 1 =>
    let r := update_output s
    let rest := runTicks r.1 n
    (rest.1, (if r.2.isSome then 1 else 0) + rest.2)

/-- Gamepad forward direction from the left stick, from `update_gamepad`
(lines 291-292): `x_dir = -left_y if abs(left_y) > deadzone else 0.0` with
the local stick deadzone `0.2`. This is the contribution before the
normalization step. -/
def gamepad_x_dir (left_y : ℚ) : ℚ :=
  if rabs left_y > 1 / 5 then -left_y else 0

/-- Gamepad turn direction from the left stick, from `update_gamepad`
(line 293): `z_dir = left_x if abs(left_x) > deadzone else 0.0` with the
local stick deadzone `0.2`. -/
def gamepad_z_dir (left_x : ℚ) : ℚ :=
  if rabs left_x > 1 / 5 then left_x else 0

/-- The normalization step of `update_gamepad` (lines 296-299):
`magnitude = np.sqrt(x_dir**2 + z_dir**2); if magnitude > 1.0: divide both
components by magnitude`. Modelled over the reals because of the square
root. -/
noncomputable def normalizeDir (x z : ℝ) : ℝ × ℝ :=
  if Real.sqrt (x ^ 2 + z ^ 2) > 1 then
    (x / Real.sqrt (x ^ 2 + z ^ 2), z / Real.sqrt (x ^ 2 + z ^ 2))
  else (x, z)

/-- The full left-stick direction computation of `update_gamepad`:
deadzone per axis, then normalization of the resulting 2-vector. -/
noncomputable def update_gamepad_dir (left_x left_y : ℚ) : ℝ × ℝ :=
  normalizeDir (gamepad_x_dir left_y) (gamepad_z_dir left_x)

set_option maxRecDepth 10000

theorem rabs_zero : rabs 0 = 0 := by
  unfold rabs
  norm_num

/-- C1: for every velocity intent, the safety gate under hazard state
EMERGENCY with override off returns exactly the zero intent, regardless of
the input, and under EMERGENCY with override on returns the input intent
unmodified. -/
theorem gate_emergency_zero_and_override_id (i : Intent) :
    (gate i SafetyState.EMERGENCY false).1 = ⟨0, 0, 0⟩ ∧
    (gate i SafetyState.EMERGENCY true).1 = i := by
  constructor <;> rfl

/-- C2: the hazard monitor state is EMERGENCY iff the distance is strictly
below the threshold; a distance exactly equal to the threshold yields
NORMAL, and the stored emergency flag after a sample arrives agrees with
the strict comparison. -/
theorem hazardState_emergency_iff :
    (∀ d t : ℚ, hazardState d t = SafetyState.EMERGENCY ↔ d < t) ∧
    (∀ t : ℚ, hazardState t t = SafetyState.NORMAL) ∧
    ∀ (s : GuiState) (d : ℚ),
      (update_hazard_display s d).emergency_active = true ↔ d < s.hazard_threshold := by
  refine ⟨?_, ?_, ?_⟩
  · intro d t
    unfold hazardState
    by_cases h : d < t
    · simp [h]
    · simp [h]
  · intro t
    unfold hazardState
    simp
  · intro s d
    unfold update_hazard_display
    simp

/-- C8: with both opposing buttons of an axis held, the manual contribution
to that axis of the fused direction is exactly 0 (the buttons cancel),
whatever the state of the other two buttons. -/
theorem opposing_buttons_cancel (l r f bw : Bool) :
    manual_x ⟨true, true, l, r⟩ = 0 ∧ manual_z ⟨f, bw, true, true⟩ = 0 := by
  constructor <;> simp [manual_x, manual_z]

/-- C10: at startup the stored hazard distance is 999.0, the emergency flag
is off, the effective mode is NORMAL for either override setting, and 999.0
strictly exceeds every threshold settable through the slider (integers
10..100, i.e. 1.0-10.0 m), so the hazard state derived from the initial
distance is NORMAL at every settable threshold. -/
theorem initial_state_normal :
    initState.hazard_distance = 999 ∧
    initState.emergency_active = false ∧
    (∀ ov : Bool, effectiveMode (hazardStateOf initState) ov = EffectiveMode.NORMAL) ∧
    ∀ v : ℕ, 10 ≤ v → v ≤ 100 →
      (update_threshold initState v).hazard_threshold < initState.hazard_distance ∧
      hazardState initState.hazard_distance (update_threshold initState v).hazard_threshold
        = SafetyState.NORMAL := by
  refine ⟨rfl, rfl, ?_, ?_⟩
  · intro ov
    cases ov <;> rfl
  · intro v h10 h100
    have hv : ((v : ℚ)) ≤ 100 := by exact_mod_cast h100
    have ht : (update_threshold initState v).hazard_threshold ≤ 10 := by
      unfold update_threshold
      simp only
      rw [div_le_iff₀ (by norm_num : (0:ℚ) < 10)]
      linarith
    have hlt : (update_threshold initState v).hazard_threshold < 999 := by
      linarith
    constructor
    · exact hlt
    · unfold hazardState
      rw [if_neg]
      exact not_lt.mpr (le_of_lt hlt)

/-- Witness for C10 at the largest settable slider value. -/
theorem initial_state_normal_witness :
    hazardState initState.hazard_distance (update_threshold initState 100).hazard_threshold
      = SafetyState.NORMAL :=
  (initial_state_normal.2.2.2 100 (by norm_num) (by norm_num)).2

/-- C4: a dispatch tick sends a command iff at least one of the three
per-field absolute differences between the candidate intent and the
last-sent values strictly exceeds the change epsilon 0.01 — an OR over the
three fields — and in particular with last sent (0.10, 0, 0.5) and
candidate (0.101, 0, 0.5) the gate does not fire. -/
theorem dispatch_iff_change_exceeds_epsilon :
    (∀ s : GuiState, (update_output s).2.isSome = true ↔
      (rabs (manual_x s.button_states - s.last_x) > 1 / 100 ∨
       rabs (manual_z s.button_states - s.last_z) > 1 / 100 ∨
       rabs (s.speed - s.last_speed) > 1 / 100)) ∧
    ¬ changeGate (101 / 1000) 0 (1 / 2) (1 / 10) 0 (1 / 2) := by
  constructor
  · intro s
    simp only [update_output]
    split
    next h => exact iff_of_true rfl h
    next h => exact iff_of_false (by simp) h
  · exact of_decide_eq_false (by with_unfolding_all rfl)

/-- Witness for C4: a tick whose speed field alone moved by more than the
epsilon fires the gate. -/
theorem dispatch_iff_change_exceeds_epsilon_witness :
    (update_output { initState with speed := 1 / 2 }).2.isSome = true :=
  (dispatch_iff_change_exceeds_epsilon.1 { initState with speed := 1 / 2 }).mpr
    (Or.inr (Or.inr (of_decide_eq_true (by with_unfolding_all rfl))))

/-- C7 (amended): a left-stick axis reading whose absolute value is at most
the stick deadzone 0.2 contributes exactly 0 to the direction vector; a
reading strictly beyond the deadzone contributes its raw value for axis 0
(to turn) and its negated raw value for axis 1 (to forward). -/
theorem deadzone_contribution (v : ℚ) :
    (rabs v ≤ 1 / 5 → gamepad_z_dir v = 0 ∧ gamepad_x_dir v = 0) ∧
    (rabs v > 1 / 5 → gamepad_z_dir v = v ∧ gamepad_x_dir v = -v) := by
  constructor
  · intro h
    unfold gamepad_z_dir gamepad_x_dir
    rw [if_neg (not_lt.mpr h), if_neg (not_lt.mpr h)]
    exact ⟨rfl, rfl⟩
  · intro h
    unfold gamepad_z_dir gamepad_x_dir
    rw [if_pos h, if_pos h]
    exact ⟨rfl, rfl⟩

/-- Witness for C7, at the readings of the spec scenario: axis 0 at 0.05 is
inside the deadzone and contributes 0; axis 0 at 0.5 contributes 0.5. -/
theorem deadzone_contribution_witness :
    gamepad_z_dir (1 / 20) = 0 ∧ gamepad_z_dir (1 / 2) = 1 / 2 :=
  ⟨((deadzone_contribution (1 / 20)).1 (of_decide_eq_true (by with_unfolding_all rfl))).1,
   ((deadzone_contribution (1 / 2)).2 (of_decide_eq_true (by with_unfolding_all rfl))).1⟩

/-- Counterexample for C7: an axis 1 reading of 0.5 is beyond the deadzone
0.2 but contributes -0.5 to the forward direction (`x_dir = -left_y`), not
its raw value 0.5. -/
theorem deadzone_raw_value_counterexample :
    gamepad_x_dir (1 / 2) = -(1 / 2) ∧ gamepad_x_dir (1 / 2) ≠ 1 / 2 :=
  ⟨by with_unfolding_all rfl,
   fun h => absurd h (of_decide_eq_false (by with_unfolding_all rfl))⟩

theorem normalizeDir_sq_norm_le_one (x z : ℝ) :
    (normalizeDir x z).1 ^ 2 + (normalizeDir x z).2 ^ 2 ≤ 1 := by
  have hs : (0 : ℝ) ≤ x ^ 2 + z ^ 2 := by positivity
  have hmsq : Real.sqrt (x ^ 2 + z ^ 2) ^ 2 = x ^ 2 + z ^ 2 := Real.sq_sqrt hs
  unfold normalizeDir
  split
  next h =>
    have hm0 : Real.sqrt (x ^ 2 + z ^ 2) ≠ 0 := by
      intro h0
      rw [h0] at h
      exact absurd h (by norm_num)
    have hdiv : (x / Real.sqrt (x ^ 2 + z ^ 2)) ^ 2 + (z / Real.sqrt (x ^ 2 + z ^ 2)) ^ 2
        = (x ^ 2 + z ^ 2) / Real.sqrt (x ^ 2 + z ^ 2) ^ 2 := by
      field_simp
    have hs1 : 1 < x ^ 2 + z ^ 2 := by
      nlinarith [Real.sqrt_nonneg (x ^ 2 + z ^ 2)]
    simp only
    rw [hdiv, hmsq, div_self (ne_of_gt (by linarith : (0 : ℝ) < x ^ 2 + z ^ 2))]
  next h =>
    push_neg at h
    simp only
    calc x ^ 2 + z ^ 2 = Real.sqrt (x ^ 2 + z ^ 2) ^ 2 := hmsq.symm
    _ ≤ 1 := by nlinarith [Real.sqrt_nonneg (x ^ 2 + z ^ 2)]

/-- C6 (amended): the controller-derived direction vector — deadzone per
axis, then the uniform-scaling normalization of `update_gamepad` — always
has squared Euclidean norm at most 1 (equivalently, magnitude at most 1);
the manual button vector used by the dispatch tick is not clamped, see the
counterexample. -/
theorem gamepad_dir_norm_le_one (left_x left_y : ℚ) :
    (update_gamepad_dir left_x left_y).1 ^ 2 + (update_gamepad_dir left_x left_y).2 ^ 2 ≤ 1 :=
  normalizeDir_sq_norm_le_one _ _

/-- Holding forward and left together (with no controller input). -/
def diagonalButtons : ButtonState := ⟨true, false, true, false⟩

/-- Counterexample for C6: with forward and left held the dispatch tick
sends the intent (1, 1, 0), whose (forward, turn) vector has squared
Euclidean norm 2 — the manual vector is never reduced by uniform scaling,
so the claimed bound of 1 fails for this combination of inputs. -/
theorem manual_norm_exceeds_one_counterexample :
    manual_x diagonalButtons = 1 ∧ manual_z diagonalButtons = 1 ∧
    (update_output { initState with button_states := diagonalButtons }).2 = some ⟨1, 1, 0⟩ ∧
    ¬ (manual_x diagonalButtons ^ 2 + manual_z diagonalButtons ^ 2 ≤ 1) :=
  ⟨by with_unfolding_all rfl, by with_unfolding_all rfl, by with_unfolding_all rfl,
   of_decide_eq_false (by with_unfolding_all rfl)⟩

/-- C5 (amended): the intent transmitted on a sending dispatch tick is the
gated candidate fused from the manual buttons and the speed slider alone;
no controller axis value enters the candidate. -/
theorem dispatch_candidate_manual_only (s : GuiState) :
    (update_output s).2 = none ∨
    (update_output s).2 =
      some (gate ⟨manual_x s.button_states, manual_z s.button_states, s.speed⟩
        (hazardStateOf s) s.safe_mode_override).1 := by
  simp only [update_output]
  split
  next => exact Or.inr rfl
  next => exact Or.inl rfl

/-- A state with no buttons held but stale last-sent values, so that the
next tick dispatches; the controller left stick is meanwhile pushed. -/
def gamepadDriveState : GuiState :=
  { initState with speed := 1 / 2, last_x := 1, last_z := 1, last_speed := 1 }

/-- Counterexample for C5: with no manual buttons held and the controller
left stick pushed forward (axis 1 reading -0.5, beyond the 0.2 deadzone,
contributing 0.5 to forward), the dispatch tick's candidate forward
component is 0 and the tick sends (0, 0, 0.5) — the candidate is not the
sum 0 + 0.5 of the manual and controller contributions. -/
theorem additive_fusion_counterexample :
    gamepad_x_dir (-(1 / 2)) = 1 / 2 ∧
    (update_output gamepadDriveState).2 = some ⟨0, 0, 1 / 2⟩ ∧
    (update_output gamepadDriveState).1.last_x = 0 ∧
    (update_output gamepadDriveState).1.last_x ≠
      manual_x gamepadDriveState.button_states + gamepad_x_dir (-(1 / 2)) :=
  ⟨by with_unfolding_all rfl, by with_unfolding_all rfl, by with_unfolding_all rfl,
   fun h => absurd h (of_decide_eq_false (by with_unfolding_all rfl))⟩

/-- C9 (amended): on a dispatch tick that sends, the stored last-sent
values are updated to the raw pre-interlock candidate (manual fusion and
slider speed) — which can differ from the transmitted post-interlock
intent — and on a tick that does not send the whole state is unchanged. -/
theorem last_sent_update (s : GuiState) :
    ((update_output s).2.isSome = true →
      (update_output s).1.last_x = manual_x s.button_states ∧
      (update_output s).1.last_z = manual_z s.button_states ∧
      (update_output s).1.last_speed = s.speed) ∧
    ((update_output s).2 = none → (update_output s).1 = s) := by
  simp only [update_output]
  split
  next => exact ⟨fun _ => ⟨rfl, rfl, rfl⟩, fun h => absurd h (by simp)⟩
  next => exact ⟨fun h => absurd h (by simp), fun _ => rfl⟩

/-- A state in emergency with override off and the forward button freshly
pressed (so that the tick dispatches). -/
def emergencyDriveState : GuiState :=
  { initState with button_states := ⟨true, false, false, false⟩, emergency_active := true }

/-- Witness for C9 at a sending tick and at a non-sending tick. -/
theorem last_sent_update_witness :
    (update_output emergencyDriveState).1.last_x = manual_x emergencyDriveState.button_states ∧
    (update_output initState).1 = initState :=
  ⟨((last_sent_update emergencyDriveState).1 (by with_unfolding_all rfl)).1,
   (last_sent_update initState).2 (by with_unfolding_all rfl)⟩

/-- Counterexample for C9: on an emergency tick that sends, the transmitted
post-interlock intent is the zero intent, but the stored last-sent forward
value becomes 1 (the raw candidate), not the 0 that was sent. -/
theorem last_sent_postinterlock_counterexample :
    (update_output emergencyDriveState).2 = some ⟨0, 0, 0⟩ ∧
    (update_output emergencyDriveState).1.last_x = 1 ∧
    (update_output emergencyDriveState).1.last_x ≠ (0 : ℚ) :=
  ⟨by with_unfolding_all rfl, by with_unfolding_all rfl,
   fun h => absurd h (of_decide_eq_false (by with_unfolding_all rfl))⟩

theorem update_output_no_change (s : GuiState)
    (h1 : manual_x s.button_states = s.last_x)
    (h2 : manual_z s.button_states = s.last_z)
    (h3 : s.speed = s.last_speed) :
    update_output s = (s, none) := by
  simp only [update_output]
  rw [if_neg]
  intro hgate
  unfold changeGate at hgate
  rw [h1, h2, h3, sub_self, sub_self, sub_self, rabs_zero] at hgate
  unfold deadzone at hgate
  rcases hgate with h | h | h <;> exact absurd h (by norm_num)

theorem runTicks_no_change (s : GuiState) (h : update_output s = (s, none)) :
    ∀ n : ℕ, runTicks s n = (s, 0) := by
  intro n
  induction n with
  | zero => rfl
  | succ n ih =>
    unfold runTicks
    rw [h]
    simp [ih]

/-- C3 (amended): entering emergency does not by itself trigger a
dispatch: the change gate compares only the raw button-fused candidate and
the slider speed against the last-sent values, so on any run of ticks —
emergency active or not — whose candidate equals the last-sent values, no
send occurs at all (zero sends, not one); the zero intent is transmitted
only when a tick's raw candidate differs from the last-sent values, the
interlock zeroing it inside the transport call on that occasion. -/
theorem emergency_ticks_no_send (s : GuiState) (n : ℕ)
    (hem : s.emergency_active = true)
    (h1 : manual_x s.button_states = s.last_x)
    (h2 : manual_z s.button_states = s.last_z)
    (h3 : s.speed = s.last_speed) :
    (runTicks s n).2 = 0 := by
  rw [runTicks_no_change s (update_output_no_change s h1 h2 h3) n]

/-- The state of the C3 scenario just before the hazard sample arrives:
threshold 5.0 m, override off, the operator holding forward at speed 0.5
with those values already dispatched. -/
def preEmergencyState : GuiState :=
  { initState with
    speed := 1 / 2
    button_states := ⟨true, false, false, false⟩
    last_x := 1
    last_z := 0
    last_speed := 1 / 2 }

/-- Witness for C3: one hundred ticks after the sample 4.0 m arrives in the
scenario state, zero sends have occurred. -/
theorem emergency_ticks_no_send_witness :
    (runTicks (update_hazard_display preEmergencyState 4) 100).2 = 0 :=
  emergency_ticks_no_send (update_hazard_display preEmergencyState 4) 100
    (by with_unfolding_all rfl) (by with_unfolding_all rfl)
    (by with_unfolding_all rfl) (by with_unfolding_all rfl)

/-- Counterexample for C3: threshold 5.0 m, a sample of 4.0 m arrives,
override off — the system enters EMERGENCY / EMERGENCY_STOPPED — yet over
the next 100 identical ticks the dispatcher performs zero sends, not the
claimed exactly-once send of the zero intent (the change gate sees the
unchanged raw candidate, so the stop command never reaches the actuator). -/
theorem emergency_entry_zero_sends_counterexample :
    (update_hazard_display preEmergencyState 4).emergency_active = true ∧
    effectiveMode (hazardStateOf (update_hazard_display preEmergencyState 4)) false
      = EffectiveMode.EMERGENCY_STOPPED ∧
    (runTicks (update_hazard_display preEmergencyState 4) 100).2 = 0 ∧
    (runTicks (update_hazard_display preEmergencyState 4) 100).2 ≠ 1 := by
  have h : (runTicks (update_hazard_display preEmergencyState 4) 100).2 = 0 := by
    with_unfolding_all rfl
  exact ⟨by with_unfolding_all rfl, by with_unfolding_all rfl, h,
    by rw [h]; exact Nat.zero_ne_one⟩
